import Mathlib

/-!
Verification development for the TDD multi-agent workflow
(`src/autogen_tdd_crew.py`) against its specification.

The repository's only source file wires up the agents, the group chat and
the approval-gated executor; the orchestration core the spec describes
(Router, Orchestrator loop, ApprovalGate semantics) is realized by the
framework the file calls into and is not itself under `src/`.  Those parts
are therefore modelled from the spec (each such definition says so in its
doc comment).  The pure, fully present parts of the source
(`get_llm_config`, the termination-message classifier, and
`check_and_pull_ollama_model`) are embedded directly from the code.
-/

namespace Crew

/-- Modelled from the spec (section 3): the five actor roles.  The source
declares agents with exactly these names (`Planner`, `Tester`, `Coder`,
`Linter`, `Executor`). -/
inductive Actor
  | Planner
  | Tester
  | Coder
  | Linter
  | Executor
deriving DecidableEq, Fintype, Repr

/-- Modelled from the spec (section 3): outcome classification of a turn.
`HUMAN_OVERRIDE` carries the actor named in the override instruction
(section 4.1's table routes an override to that actor). -/
inductive Outcome
  | PLAN
  | TEST_WRITTEN
  | CODE_WRITTEN
  | LINT_CLEAN
  | LINT_DIRTY
  | TEST_PASS
  | TEST_FAIL
  | HUMAN_OVERRIDE (target : Actor)
  | TERMINATE
deriving DecidableEq, Fintype, Repr

/-- Modelled from the spec (section 3): a turn is an actor, free-form
content, and a derived outcome; immutable once appended. -/
structure Turn where
  actor : Actor
  content : String
  outcome : Outcome
deriving DecidableEq, Repr

/-- Modelled from the spec (section 7): the only router-level error. -/
inductive RouterError
  | InvalidOutcome
deriving DecidableEq, Repr

/-- Modelled from the spec (section 4.1): the router's verdict — a next
actor, or session termination. -/
inductive NextStep
  | next (a : Actor)
  | terminate
deriving DecidableEq, Repr

/-- Modelled from the spec (section 4.1): the transition table, keyed by
(last actor, outcome).  Any (actor, outcome) pair absent from the table is
an `InvalidOutcome` error, never a silent default. -/
def routerTable : Actor → Outcome → Except RouterError NextStep
  | _, .HUMAN_OVERRIDE t => .ok (.next t)
  | _, .TERMINATE => .ok .terminate
  | .Planner, .PLAN => .ok (.next .Tester)
  | .Tester, .TEST_WRITTEN => .ok (.next .Executor)
  | .Executor, .TEST_FAIL => .ok (.next .Coder)
  | .Executor, .TEST_PASS => .ok (.next .Linter)
  | .Coder, .CODE_WRITTEN => .ok (.next .Executor)
  | .Linter, .LINT_DIRTY => .ok (.next .Coder)
  | .Linter, .LINT_CLEAN => .ok (.next .Planner)
  | _, _ => .error .InvalidOutcome

/-- Modelled from the spec (section 4.1, initial state): route from a
transcript — no prior turn routes unconditionally to the Planner
(the synthetic session-start outcome); otherwise the table applies to the
last turn. -/
def routeFrom (t : List Turn) : Except RouterError NextStep :=
  match t.getLast? with
  | none => .ok (.next .Planner)
  | some last => routerTable last.actor last.outcome

/-- Modelled from the spec (sections 4.4 and 6): session status.
`RUNNING` is the orchestrator's live state; the other four are the
termination report's `finalStatus` values.  A closed approval channel
fails closed to `HUMAN_QUIT` (section 7, case c). -/
inductive Status
  | RUNNING
  | CLEAN_TERMINATE
  | BUDGET_EXHAUSTED
  | HUMAN_QUIT
  | ROUTER_ERROR
deriving DecidableEq, Repr

/-- Modelled from the spec (section 6, session configuration): the round
ceiling, externally configurable. -/
structure Config where
  ceiling : Nat
deriving DecidableEq, Repr

/-- From the source (line 199): `max_round=50`, the reference round
ceiling handed to the group chat. -/
def max_round : Nat := 50

/-- Modelled from the spec (sections 3 and 4.4): the orchestrator's
state — the append-only transcript, the round counter, and the
RUNNING/terminated status. -/
structure SessionState where
  transcript : List Turn
  rounds : Nat
  status : Status
deriving DecidableEq, Repr

/-- Modelled from the spec (section 3, lifecycle): a session starts with
an empty transcript, zero completed rounds, and status RUNNING. -/
def initState : SessionState :=
  { transcript := [], rounds := 0, status := .RUNNING }

/-- Modelled from the spec (sections 4.3 and 6): the external
collaborators, as oracles — each actor's content-generation policy, the
ExecutionSink path used for an approved Executor turn, and the human
approval input stream (`none` models a closed/unavailable stream). -/
structure Env where
  contribute : Actor → List Turn → String × Outcome
  execute : List Turn → String × Outcome
  humanInput : List Turn → Option String

/-- Modelled from the spec (section 4.2): the three recognized classes of
human input at the approval gate, plus the closed-channel failure mode. -/
inductive HumanDecision
  | approve
  | override (txt : String)
  | quitSession
  | channelClosed
deriving DecidableEq, Repr

/-- Modelled from the spec (sections 4.2 and 6): classify one line of
human input.  Empty input approves; the quit sentinel (the source's
prompt, lines 86-92, advertises `exit`) terminates; any other non-empty
text is an override instruction.  A closed stream is the distinct
`channelClosed` failure, never approval. -/
def classifyInput : Option String → HumanDecision
  | none => .channelClosed
  | some s =>
    if s = "" then .approve
    else if s = "exit" then .quitSession
    else .override s

/-- Does the first character list start with the second?  Structural
helper for the substring test. -/
def startsWithChars : List Char → List Char → Bool
  | _, [] => true
  | [], _ :: _ => false
  | c :: cs, d :: ds => c == d && startsWithChars cs ds

/-- Does the needle occur contiguously in the haystack? -/
def occursInChars (needle : List Char) : List Char → Bool
  | [] => startsWithChars [] needle
  | d :: ds => startsWithChars (d :: ds) needle || occursInChars needle ds

/-- Substring test, the embedding of Python's `needle in hay` for strings
(source line 30): the needle occurs contiguously in the haystack, the
empty needle occurring in everything. -/
def pyIn (needle hay : String) : Bool :=
  occursInChars needle.data hay.data

/-- Modelled from the spec (sections 4.1 and 9, open question): the actor
named in an override instruction — the first actor whose name occurs in
the text, defaulting to the Planner when none is named (the spec leaves
the override grammar open). -/
def parseTarget (txt : String) : Actor :=
  if pyIn "Planner" txt then .Planner
  else if pyIn "Tester" txt then .Tester
  else if pyIn "Coder" txt then .Coder
  else if pyIn "Linter" txt then .Linter
  else if pyIn "Executor" txt then .Executor
  else .Planner

/-- Build a turn for an actor from a (content, outcome) pair. -/
def mkTurn (a : Actor) (co : String × Outcome) : Turn :=
  { actor := a, content := co.1, outcome := co.2 }

/-- Modelled from the spec (sections 4.2 and 4.4): produce the chosen
actor's turn.  The side-effecting Executor goes through the approval
gate: empty input approves and the ExecutionSink runs; non-empty,
non-quit input becomes a HUMAN_OVERRIDE turn bypassing execution; the
quit sentinel and a closed input channel produce no turn (the session
terminates).  Every other actor contributes directly. -/
def gateTurn (env : Env) (s : SessionState) (a : Actor) : Option Turn :=
  if a = .Executor then
    match classifyInput (env.humanInput s.transcript) with
    | .approve => some (mkTurn a (env.execute s.transcript))
    | .override txt =>
      some { actor := a, content := txt,
             outcome := .HUMAN_OVERRIDE (parseTarget txt) }
    | .quitSession => none
    | .channelClosed => none
  else some (mkTurn a (env.contribute a s.transcript))

/-- Modelled from the spec (section 4.4, steps 6-8): append a completed
turn, increment the round counter, and force BUDGET_EXHAUSTED once the
counter reaches the ceiling. -/
def appendTurn (cfg : Config) (s : SessionState) (t : Turn) : SessionState :=
  { transcript := s.transcript ++ [t], rounds := s.rounds + 1,
    status := if s.rounds + 1 ≥ cfg.ceiling then .BUDGET_EXHAUSTED
              else .RUNNING }

/-- Modelled from the spec (section 4.4): one orchestrator iteration.
Read the last turn (or synthetic start), ask the router, stop on a
terminal verdict or a router error; otherwise produce the chosen actor's
gated turn and append it (sections 4.1 and 4.4 both state the round
ceiling as a terminal condition, so a running session at the ceiling is
forced to BUDGET_EXHAUSTED before any further turn). -/
def step (env : Env) (cfg : Config) (s : SessionState) : SessionState :=
  if s.status ≠ .RUNNING then s
  else if s.rounds ≥ cfg.ceiling then { s with status := .BUDGET_EXHAUSTED }
  else
    match routeFrom s.transcript with
    | .error _ => { s with status := .ROUTER_ERROR }
    | .ok .terminate => { s with status := .CLEAN_TERMINATE }
    | .ok (.next a) =>
      match gateTurn env s a with
      | none => { s with status := .HUMAN_QUIT }
      | some t => appendTurn cfg s t

/-- Iterate the orchestrator `n` times. -/
def stepIter (env : Env) (cfg : Config) : Nat → SessionState → SessionState
  | 0, s => s
  | n + 1, s => stepIter env cfg n (step env cfg s)

/-- Modelled from the spec (section 8, idempotence property): the
scheduling decision after `i` turns of a transcript — the router applied
to the first `i` turns. -/
def decisionAt (t : List Turn) (i : Nat) : Except RouterError NextStep :=
  routeFrom (t.take i)

/-- Modelled from the spec (section 8, idempotence property): replay a
transcript through the router from index 0, collecting every next-actor
decision. -/
def replayDecisions (t : List Turn) : List (Except RouterError NextStep) :=
  (List.range (t.length + 1)).map (decisionAt t)

/-- A concrete environment for witnesses: every actor contributes a plan,
execution reports a failing test, and the human always approves. -/
def trivialEnv : Env :=
  { contribute := fun _ _ => ("plan", .PLAN),
    execute := fun _ => ("pytest", .TEST_FAIL),
    humanInput := fun _ => some "" }

/-- A concrete environment for witnesses whose human input stream is
closed. -/
def closedEnv : Env :=
  { contribute := fun _ _ => ("plan", .PLAN),
    execute := fun _ => ("pytest", .TEST_FAIL),
    humanInput := fun _ => none }

/-- A concrete state for witnesses whose last turn is the Tester's, so
the router chooses the Executor next. -/
def afterTester : SessionState :=
  { transcript := [{ actor := .Tester, content := "wrote tests",
                     outcome := .TEST_WRITTEN }],
    rounds := 1, status := .RUNNING }

/-! Embeddings of the pure parts of `src/autogen_tdd_crew.py`. -/

/-- Python truthiness of `os.environ.get(name)`: `None` (variable unset)
and the empty string are falsy, any other string is truthy
(source lines 48-50). -/
def pyTruthy : Option String → Bool
  | none => false
  | some s => !s.isEmpty

/-- One entry of the `config_list` returned by `get_llm_config`
(source lines 52-74).  Fields absent in a branch are `none`. -/
structure ModelEntry where
  model : String
  api_key : String
  api_type : Option String
  base_url : Option String
deriving DecidableEq, Repr

/-- The configuration dictionary returned by `get_llm_config`
(source lines 52-74).  The temperature `0.2` is embedded as the rational
2/10 (it is a configuration constant, not computed with). -/
structure LLMConfig where
  config_list : List ModelEntry
  temperature : Rat
  seed : Nat
  request_timeout : Option Nat
deriving DecidableEq, Repr

/-- The external conditions `check_and_pull_ollama_model` depends on:
whether the `ollama` executable resolves (a missing executable raises
`FileNotFoundError`), the stdout of `ollama list`, and whether
`ollama pull` exits successfully (a failing pull raises
`CalledProcessError` because of `check=True`). -/
structure OllamaEnv where
  ollamaFound : Bool
  listStdout : String
  pullOk : Bool
deriving DecidableEq, Repr

/-- How a call to `check_and_pull_ollama_model` ends: a normal return
(recording whether a pull was attempted), or `sys.exit(code)`. -/
inductive OllamaCheckResult
  | ok (pulled : Bool)
  | exited (code : Nat)
deriving DecidableEq, Repr

/-- Embedding of `check_and_pull_ollama_model` (source lines 12-43).
If the `ollama` executable is missing, the `FileNotFoundError` handler
runs `sys.exit(1)`.  Otherwise `ollama list` runs; when its stdout does
not contain the model name, the model is pulled — a failing pull hits the
`CalledProcessError` handler and `sys.exit(1)` — and when the stdout does
contain it, the function prints and returns without pulling.  (The
Windows-only PATH adjustment of lines 16-25 only mutates the environment
searched for the executable and is absorbed into `ollamaFound`.) -/
def check_and_pull_ollama_model (env : OllamaEnv) (model_name : String) :
    OllamaCheckResult :=
  if !env.ollamaFound then .exited 1
  else if !pyIn model_name env.listStdout then
    if env.pullOk then .ok true else .exited 1
  else .ok false

/-- Embedding of the Gemini branch of `get_llm_config`
(source lines 50-58). -/
def geminiConfig (api_key : String) : LLMConfig :=
  { config_list := [{ model := "gemini-2.5-flash", api_key := api_key,
                      api_type := some "google", base_url := none }],
    temperature := 2 / 10, seed := 42, request_timeout := none }

/-- Embedding of the Ollama fallback branch of `get_llm_config`
(source lines 59-74). -/
def ollamaConfig : LLMConfig :=
  { config_list := [{ model := "llama3:8b", api_key := "ollama",
                      api_type := none,
                      base_url := some "http://localhost:11434/v1" }],
    temperature := 2 / 10, seed := 42, request_timeout := some 300 }

/-- Embedding of `get_llm_config` (source lines 46-74).  `geminiKey` is
`os.environ.get("GEMINI_API_KEY")`; a truthy value selects the Gemini
configuration, otherwise `check_and_pull_ollama_model "llama3:8b"` runs
first (and may exit the process) and the Ollama configuration is
returned. -/
def get_llm_config (geminiKey : Option String) (oenv : OllamaEnv) :
    Except Nat LLMConfig :=
  if pyTruthy geminiKey then .ok (geminiConfig (geminiKey.getD ""))
  else
    match check_and_pull_ollama_model oenv "llama3:8b" with
    | .exited code => .error code
    | .ok _ => .ok ollamaConfig

/-- The characters Python's `str.rstrip()` strips: the Unicode
whitespace set used by `str.isspace`. -/
def pyWhitespaceChars : List Char :=
  [' ', '\t', '\n', '\r', '\x0b', '\x0c',
   '\x1c', '\x1d', '\x1e', '\x1f', '\x85', '\xa0',
   '\u1680', '\u2000', '\u2001', '\u2002', '\u2003', '\u2004', '\u2005',
   '\u2006', '\u2007', '\u2008', '\u2009', '\u200a', '\u2028', '\u2029',
   '\u202f', '\u205f', '\u3000']

/-- Embedding of Python's `str.rstrip()` with no argument: drop trailing
whitespace characters. -/
def pyRstrip (s : String) : String :=
  ⟨(s.data.reverse.dropWhile (fun c => c ∈ pyWhitespaceChars)).reverse⟩

/-- A chat message as the termination lambda sees it: a dictionary whose
`content` field may be absent. -/
structure Message where
  content : Option String
deriving DecidableEq, Repr

/-- Embedding of Python's `str.endswith` with a single string argument:
the string ends with the given suffix.  (Checked structurally: the
reversed string starts with the reversed suffix.) -/
def pyEndswith (s suffix : String) : Bool :=
  startsWithChars s.data.reverse suffix.data.reverse

/-- Embedding of the Executor's termination classifier (source line 186):
`lambda x: x.get("content", "").rstrip().endswith("TERMINATE")`. -/
def is_termination_msg (m : Message) : Bool :=
  pyEndswith (pyRstrip (m.content.getD "")) "TERMINATE"

/-- The claim's reading of the classifier: a message is terminating
exactly when its content, after stripping trailing whitespace, ends with
the literal `TERMINATE`, a missing content field being treated as
non-terminating. -/
def termMsgSpec (m : Message) : Bool :=
  match m.content with
  | none => false
  | some s => pyEndswith (pyRstrip s) "TERMINATE"

/-! Theorems. -/

deriving instance DecidableEq for Except

/-- A string whose `isEmpty` is false is not the empty string. -/
theorem ne_empty_of_isEmpty_false {s : String} (h : s.isEmpty = false) :
    s ≠ "" := by
  intro hs
  rw [hs] at h
  exact absurd h (by decide)

/-- A non-empty string has `isEmpty` false. -/
theorem isEmpty_false_of_ne {s : String} (h : s ≠ "") :
    s.isEmpty = false := by
  cases he : s.isEmpty
  · rfl
  · exact absurd ((String.isEmpty_iff _).mp he) h

/-- C1: every pair (last actor, outcome) in the section 4.1 transition
table routes exactly as the table says — Planner/PLAN to Tester,
Tester/TEST_WRITTEN to Executor, Executor/TEST_FAIL to Coder,
Executor/TEST_PASS to Linter, Coder/CODE_WRITTEN to Executor,
Linter/LINT_DIRTY to Coder, Linter/LINT_CLEAN to Planner — and every
pair absent from the table (not one of these seven, not an override,
not TERMINATE) yields the InvalidOutcome error, never a default
transition. -/
theorem c1_router_transition_table :
    routerTable .Planner .PLAN = .ok (.next .Tester)
  ∧ routerTable .Tester .TEST_WRITTEN = .ok (.next .Executor)
  ∧ routerTable .Executor .TEST_FAIL = .ok (.next .Coder)
  ∧ routerTable .Executor .TEST_PASS = .ok (.next .Linter)
  ∧ routerTable .Coder .CODE_WRITTEN = .ok (.next .Executor)
  ∧ routerTable .Linter .LINT_DIRTY = .ok (.next .Coder)
  ∧ routerTable .Linter .LINT_CLEAN = .ok (.next .Planner)
  ∧ ∀ (a : Actor) (o : Outcome),
      routerTable a o ≠ .error .InvalidOutcome →
      o = .TERMINATE ∨ (∃ t, o = .HUMAN_OVERRIDE t) ∨
        (a, o) ∈ ([(.Planner, .PLAN), (.Tester, .TEST_WRITTEN),
                   (.Executor, .TEST_FAIL), (.Executor, .TEST_PASS),
                   (.Coder, .CODE_WRITTEN), (.Linter, .LINT_DIRTY),
                   (.Linter, .LINT_CLEAN)] : List (Actor × Outcome)) := by
  refine ⟨rfl, rfl, rfl, rfl, rfl, rfl, rfl, ?_⟩
  decide

/-- Witness for C1: Planner/PLAN routes without error, so it lies in the
table. -/
theorem c1_router_transition_table_witness :
    Outcome.PLAN = Outcome.TERMINATE ∨
      (∃ t, Outcome.PLAN = Outcome.HUMAN_OVERRIDE t) ∨
      (Actor.Planner, Outcome.PLAN) ∈
        ([(.Planner, .PLAN), (.Tester, .TEST_WRITTEN),
          (.Executor, .TEST_FAIL), (.Executor, .TEST_PASS),
          (.Coder, .CODE_WRITTEN), (.Linter, .LINT_DIRTY),
          (.Linter, .LINT_CLEAN)] : List (Actor × Outcome)) :=
  c1_router_transition_table.2.2.2.2.2.2.2 .Planner .PLAN (by decide)

/-- C8: `get_llm_config` selects the Gemini configuration (model
gemini-2.5-flash, the key from the environment, api_type google) exactly
when GEMINI_API_KEY is set and non-empty — Python truthiness of
`os.environ.get` — and otherwise, once the Ollama model check has not
exited, the Ollama configuration (model llama3:8b, base_url
http://localhost:11434/v1); both branches fix temperature 0.2 and
seed 42. -/
theorem c8_llm_config (geminiKey : Option String) (oenv : OllamaEnv) :
    (pyTruthy geminiKey = true ↔ ∃ s, geminiKey = some s ∧ s ≠ "")
  ∧ (∀ s, geminiKey = some s → s ≠ "" →
      get_llm_config geminiKey oenv =
        .ok { config_list := [{ model := "gemini-2.5-flash", api_key := s,
                                api_type := some "google", base_url := none }],
              temperature := 2 / 10, seed := 42, request_timeout := none })
  ∧ (pyTruthy geminiKey = false →
      ((∀ b, check_and_pull_ollama_model oenv "llama3:8b" = .ok b →
          get_llm_config geminiKey oenv =
            .ok { config_list :=
                    [{ model := "llama3:8b", api_key := "ollama",
                       api_type := none,
                       base_url := some "http://localhost:11434/v1" }],
                  temperature := 2 / 10, seed := 42,
                  request_timeout := some 300 })
        ∧ ∀ c, check_and_pull_ollama_model oenv "llama3:8b" = .exited c →
            get_llm_config geminiKey oenv = .error c))
  ∧ (∀ cfg, get_llm_config geminiKey oenv = .ok cfg →
      cfg.temperature = 2 / 10 ∧ cfg.seed = 42) := by
  constructor
  · constructor
    · intro h
      cases geminiKey with
      | none => simp [pyTruthy] at h
      | some s =>
        refine ⟨s, rfl, ?_⟩
        cases he : s.isEmpty with
        | false => exact ne_empty_of_isEmpty_false he
        | true => simp [pyTruthy, he] at h
    · rintro ⟨s, rfl, hs⟩
      simp [pyTruthy, isEmpty_false_of_ne hs]
  refine ⟨?_, ?_, ?_⟩
  · rintro s rfl hs
    have ht : pyTruthy (some s) = true := by
      simp [pyTruthy, isEmpty_false_of_ne hs]
    simp [get_llm_config, ht, geminiConfig]
  · intro hf
    constructor
    · intro b hb
      simp [get_llm_config, hf, hb, ollamaConfig]
    · intro c hc
      simp [get_llm_config, hf, hc]
  · intro cfg hcfg
    unfold get_llm_config at hcfg
    split at hcfg
    · cases hcfg
      exact ⟨rfl, rfl⟩
    · split at hcfg
      · cases hcfg
      · cases hcfg
        exact ⟨rfl, rfl⟩

/-- Witness for C8: a non-empty key selects the Gemini configuration. -/
theorem c8_llm_config_witness :
    get_llm_config (some "k") ⟨true, "", true⟩ =
      .ok { config_list := [{ model := "gemini-2.5-flash", api_key := "k",
                              api_type := some "google", base_url := none }],
            temperature := 2 / 10, seed := 42, request_timeout := none } :=
  (c8_llm_config (some "k") ⟨true, "", true⟩).2.1 "k" rfl (by decide)

/-- C9: the Executor's termination classifier marks a message as
terminating exactly when its content, after stripping trailing
whitespace, ends with the literal `TERMINATE`; a message with no content
field is non-terminating. -/
theorem c9_termination_classifier (m : Message) :
    is_termination_msg m = termMsgSpec m := by
  obtain ⟨c⟩ := m
  cases c with
  | none => decide
  | some s => rfl

/-- C10: `check_and_pull_ollama_model` exits the process with status 1
exactly when the `ollama` executable is missing or the model has to be
pulled and the pull fails; every exit uses status 1; and when
`ollama list` already reports the model the function returns normally
without attempting a pull. -/
theorem c10_ollama_check (env : OllamaEnv) (model : String) :
    (check_and_pull_ollama_model env model = .exited 1 ↔
       env.ollamaFound = false ∨
         (pyIn model env.listStdout = false ∧ env.pullOk = false))
  ∧ (∀ c, check_and_pull_ollama_model env model = .exited c → c = 1)
  ∧ (env.ollamaFound = true → pyIn model env.listStdout = true →
       check_and_pull_ollama_model env model = .ok false) := by
  obtain ⟨f, l, p⟩ := env
  cases f <;> cases hml : pyIn model l <;> cases p <;>
    simp [check_and_pull_ollama_model, hml]

/-- Witness for C10: a listing that already contains the model returns
normally with no pull. -/
theorem c10_ollama_check_witness :
    check_and_pull_ollama_model
        ⟨true, "NAME ID SIZE llama3:8b latest", true⟩ "llama3:8b" =
      .ok false :=
  (c10_ollama_check ⟨true, "NAME ID SIZE llama3:8b latest", true⟩
      "llama3:8b").2.2 rfl (by decide)

/-- A session that is no longer RUNNING is a fixed point of the
orchestrator step. -/
theorem step_of_not_running (env : Env) (cfg : Config) {s : SessionState}
    (h : s.status ≠ .RUNNING) : step env cfg s = s := by
  simp [step, h]

/-- A terminated session stays terminated under iteration. -/
theorem stepIter_fixed (env : Env) (cfg : Config) {s : SessionState}
    (h : s.status ≠ .RUNNING) : ∀ n, stepIter env cfg n s = s := by
  intro n
  induction n with
  | zero => rfl
  | succ n ih =>
    show stepIter env cfg n (step env cfg s) = s
    rw [step_of_not_running env cfg h]
    exact ih

/-- Every orchestrator step either leaves the state alone (already
terminated), only changes the status to a terminated one, or — only from
a RUNNING state strictly below the ceiling — appends exactly one turn. -/
theorem step_shape (env : Env) (cfg : Config) (s : SessionState) :
    (s.status ≠ .RUNNING ∧ step env cfg s = s)
  ∨ (∃ st, st ≠ Status.RUNNING ∧ step env cfg s = { s with status := st })
  ∨ (∃ t, s.status = .RUNNING ∧ s.rounds < cfg.ceiling ∧
       step env cfg s = appendTurn cfg s t) := by
  by_cases h1 : s.status = .RUNNING
  · by_cases h2 : s.rounds ≥ cfg.ceiling
    · refine Or.inr (Or.inl ⟨.BUDGET_EXHAUSTED, by decide, ?_⟩)
      simp [step, h1, h2]
    · cases hroute : routeFrom s.transcript with
      | error e =>
        refine Or.inr (Or.inl ⟨.ROUTER_ERROR, by decide, ?_⟩)
        simp [step, h1, h2, hroute]
      | ok ns =>
        cases ns with
        | terminate =>
          refine Or.inr (Or.inl ⟨.CLEAN_TERMINATE, by decide, ?_⟩)
          simp [step, h1, h2, hroute]
        | next a =>
          cases hg : gateTurn env s a with
          | none =>
            refine Or.inr (Or.inl ⟨.HUMAN_QUIT, by decide, ?_⟩)
            simp [step, h1, h2, hroute, hg]
          | some t =>
            refine Or.inr (Or.inr ⟨t, h1, not_le.mp h2, ?_⟩)
            simp [step, h1, h2, hroute, hg]
  · exact Or.inl ⟨h1, step_of_not_running env cfg h1⟩

/-- One step only ever extends the transcript. -/
theorem step_transcript_extend (env : Env) (cfg : Config)
    (s : SessionState) :
    ∃ l, (step env cfg s).transcript = s.transcript ++ l := by
  rcases step_shape env cfg s with ⟨_, heq⟩ | ⟨st, _, heq⟩ | ⟨t, _, _, heq⟩ <;>
      rw [heq]
  · exact ⟨[], (List.append_nil _).symm⟩
  · exact ⟨[], (List.append_nil _).symm⟩
  · exact ⟨[t], rfl⟩

/-- The round counter never exceeds the ceiling. -/
theorem step_rounds_le (env : Env) (cfg : Config) {s : SessionState}
    (h : s.rounds ≤ cfg.ceiling) :
    (step env cfg s).rounds ≤ cfg.ceiling := by
  rcases step_shape env cfg s with ⟨_, heq⟩ | ⟨st, _, heq⟩ | ⟨t, _, hlt, heq⟩ <;>
      rw [heq]
  · exact h
  · exact h
  · exact hlt

/-- One step preserves "one round per appended turn". -/
theorem step_length_rounds (env : Env) (cfg : Config) {s : SessionState}
    (h : s.transcript.length = s.rounds) :
    (step env cfg s).transcript.length = (step env cfg s).rounds := by
  rcases step_shape env cfg s with ⟨_, heq⟩ | ⟨st, _, heq⟩ | ⟨t, _, _, heq⟩ <;>
      rw [heq] <;> simp [appendTurn, h]

/-- If a step leaves the session RUNNING, the source state was RUNNING,
exactly one round was completed, and the new count is still below the
ceiling. -/
theorem step_running_inv (env : Env) (cfg : Config) {s : SessionState}
    (h : (step env cfg s).status = .RUNNING) :
    s.status = .RUNNING ∧ (step env cfg s).rounds = s.rounds + 1 ∧
      s.rounds + 1 < cfg.ceiling := by
  rcases step_shape env cfg s with ⟨hns, heq⟩ | ⟨st, hst, heq⟩ |
      ⟨t, hrun, hlt, heq⟩
  · rw [heq] at h
    exact absurd h hns
  · rw [heq] at h
    exact absurd h hst
  · rw [heq] at h ⊢
    refine ⟨hrun, rfl, ?_⟩
    by_cases h2 : s.rounds + 1 ≥ cfg.ceiling
    · simp [appendTurn, h2] at h
    · exact not_le.mp h2

/-- Iteration decomposes over addition of step counts. -/
theorem stepIter_add (env : Env) (cfg : Config) (m n : Nat)
    (s : SessionState) :
    stepIter env cfg (m + n) s = stepIter env cfg n (stepIter env cfg m s) := by
  induction m generalizing s with
  | zero =>
    rw [Nat.zero_add]
    rfl
  | succ m ih =>
    rw [Nat.succ_add]
    show stepIter env cfg (m + n) (step env cfg s) = _
    rw [ih]
    rfl

/-- Liveness bound: once the remaining step budget covers the distance to
the ceiling, one more iteration cannot still be RUNNING. -/
theorem stepIter_halts (env : Env) (cfg : Config) :
    ∀ (n : Nat) (s : SessionState), cfg.ceiling ≤ s.rounds + n →
      (stepIter env cfg (n + 1) s).status ≠ .RUNNING := by
  intro n
  induction n with
  | zero =>
    intro s hle hrun
    have hrun2 : (step env cfg s).status = .RUNNING := hrun
    have h3 := (step_running_inv env cfg hrun2).2.2
    omega
  | succ n ih =>
    intro s hle
    show (stepIter env cfg (n + 1) (step env cfg s)).status ≠ .RUNNING
    by_cases hrun : (step env cfg s).status = .RUNNING
    · have h2 := step_running_inv env cfg hrun
      apply ih
      rw [h2.2.1]
      omega
    · rw [stepIter_fixed env cfg hrun (n + 1)]
      exact hrun

/-- The round counter stays at or below the ceiling under iteration. -/
theorem stepIter_rounds_le (env : Env) (cfg : Config) (n : Nat)
    {s : SessionState} (h : s.rounds ≤ cfg.ceiling) :
    (stepIter env cfg n s).rounds ≤ cfg.ceiling := by
  induction n generalizing s with
  | zero => exact h
  | succ n ih => exact ih (step_rounds_le env cfg h)

/-- The transcript length equals the round counter under iteration. -/
theorem stepIter_length_rounds (env : Env) (cfg : Config) (n : Nat)
    {s : SessionState} (h : s.transcript.length = s.rounds) :
    (stepIter env cfg n s).transcript.length =
      (stepIter env cfg n s).rounds := by
  induction n generalizing s with
  | zero => exact h
  | succ n ih => exact ih (step_length_rounds env cfg h)

/-- Iteration only ever extends the transcript. -/
theorem stepIter_transcript_extend (env : Env) (cfg : Config) (n : Nat)
    (s : SessionState) :
    ∃ l, (stepIter env cfg n s).transcript = s.transcript ++ l := by
  induction n generalizing s with
  | zero => exact ⟨[], (List.append_nil _).symm⟩
  | succ n ih =>
    obtain ⟨l2, h2⟩ := ih (step env cfg s)
    obtain ⟨l1, h1⟩ := step_transcript_extend env cfg s
    refine ⟨l1 ++ l2, ?_⟩
    show (stepIter env cfg n (step env cfg s)).transcript = _
    rw [h2, h1, List.append_assoc]

/-- The last element of the first `i + 1` entries is the entry at `i`. -/
theorem getLast?_take_succ (t : List Turn) (i : Nat) (h : i < t.length) :
    (t.take (i + 1)).getLast? = t[i]? := by
  have hlen : (t.take (i + 1)).length = i + 1 := by
    simp [List.length_take]
    omega
  rw [List.getLast?_eq_getElem?, hlen, Nat.add_sub_cancel,
      List.getElem?_take, if_pos (Nat.lt_succ_self i)]

/-- C2: for every environment and every configured ceiling, the session
is no longer RUNNING after at most `ceiling` completed turns — iterating
the orchestrator `ceiling + 1` times from the initial state always
reaches a terminated status, the round counter (equal to the number of
transcript turns) never exceeds the ceiling — and the reference ceiling
wired into the group chat is 50. -/
theorem c2_round_ceiling (env : Env) (cfg : Config) :
    (stepIter env cfg (cfg.ceiling + 1) initState).status ≠ .RUNNING
  ∧ (∀ n, (stepIter env cfg n initState).rounds ≤ cfg.ceiling)
  ∧ (∀ n, (stepIter env cfg n initState).transcript.length =
        (stepIter env cfg n initState).rounds)
  ∧ max_round = 50 := by
  refine ⟨?_, ?_, ?_, rfl⟩
  · exact stepIter_halts env cfg cfg.ceiling initState (by simp [initState])
  · intro n
    exact stepIter_rounds_le env cfg n (by simp [initState])
  · intro n
    exact stepIter_length_rounds env cfg n (by simp [initState])

/-- C5: the transcript is append-only — between any earlier and any later
state of the same run, the earlier transcript is an initial segment of
the later one (the later one extends it on the right); turns are never
removed, mutated or reordered. -/
theorem c5_transcript_append_only (env : Env) (cfg : Config)
    (s : SessionState) (m n : Nat) (h : m ≤ n) :
    ∃ l, (stepIter env cfg n s).transcript =
      (stepIter env cfg m s).transcript ++ l := by
  obtain ⟨k, rfl⟩ := Nat.le.dest h
  rw [stepIter_add]
  exact stepIter_transcript_extend env cfg k (stepIter env cfg m s)

/-- Witness for C5 at a concrete run. -/
theorem c5_transcript_append_only_witness :
    ∃ l, (stepIter trivialEnv ⟨50⟩ 3 initState).transcript =
      (stepIter trivialEnv ⟨50⟩ 1 initState).transcript ++ l :=
  c5_transcript_append_only trivialEnv ⟨50⟩ initState 1 3 (by decide)

/-- C4: replaying a transcript through the router from index 0 is
deterministic — equal transcripts replay to equal decision sequences —
and each decision is a pure function of the preceding turn: transcripts
that agree at index `i` produce the same decision after `i + 1` turns. -/
theorem c4_replay_deterministic :
    (∀ t1 t2 : List Turn, t1 = t2 → replayDecisions t1 = replayDecisions t2)
  ∧ (∀ (t1 t2 : List Turn) (i : Nat), i < t1.length → i < t2.length →
      t1[i]? = t2[i]? → decisionAt t1 (i + 1) = decisionAt t2 (i + 1)) := by
  constructor
  · intro t1 t2 h
    rw [h]
  · intro t1 t2 i h1 h2 heq
    unfold decisionAt routeFrom
    rw [getLast?_take_succ t1 i h1, getLast?_take_succ t2 i h2, heq]

/-- Witness for C4: two different transcripts agreeing at index 0 yield
the same decision after one turn. -/
theorem c4_replay_deterministic_witness :
    decisionAt [{ actor := .Planner, content := "p", outcome := .PLAN }] 1 =
      decisionAt [{ actor := .Planner, content := "p", outcome := .PLAN },
                  { actor := .Tester, content := "t",
                    outcome := .TEST_WRITTEN }] 1 :=
  c4_replay_deterministic.2
    [{ actor := .Planner, content := "p", outcome := .PLAN }]
    [{ actor := .Planner, content := "p", outcome := .PLAN },
     { actor := .Tester, content := "t", outcome := .TEST_WRITTEN }]
    0 (by decide) (by decide) rfl

/-- C6: with an empty transcript the scheduler's synthetic session-start
routing chooses the Planner, and the first turn a fresh session appends
is the Planner's. -/
theorem c6_session_start_routes_to_planner (env : Env) (cfg : Config)
    (h : 0 < cfg.ceiling) :
    routeFrom [] = .ok (.next .Planner)
  ∧ (step env cfg initState).transcript.map Turn.actor = [.Planner] := by
  refine ⟨rfl, ?_⟩
  have h2 : ¬ ((0 : Nat) ≥ cfg.ceiling) := by omega
  simp [step, initState, h2, routeFrom, gateTurn, mkTurn, appendTurn]

/-- Witness for C6 at a concrete environment and ceiling. -/
theorem c6_session_start_routes_to_planner_witness :
    routeFrom [] = .ok (.next .Planner)
  ∧ (step trivialEnv ⟨50⟩ initState).transcript.map Turn.actor =
      [.Planner] :=
  c6_session_start_routes_to_planner trivialEnv ⟨50⟩ (by decide)

/-- C3: at an Executor approval prompt, empty input approves and the
ExecutionSink's turn is appended; the quit sentinel terminates the
session as HUMAN_QUIT without appending anything; any other non-empty
text becomes a HUMAN_OVERRIDE turn built from the text alone; and
whenever approval is not granted, the step's result is independent of
the execution and contribution oracles — nothing executes before
approval. -/
theorem c3_approval_gate (env : Env) (cfg : Config) (s : SessionState)
    (hrun : s.status = .RUNNING) (hceil : s.rounds < cfg.ceiling)
    (hexec : routeFrom s.transcript = .ok (.next .Executor)) :
    (env.humanInput s.transcript = some "" →
       step env cfg s =
         appendTurn cfg s (mkTurn .Executor (env.execute s.transcript)))
  ∧ (env.humanInput s.transcript = some "exit" →
       step env cfg s = { s with status := .HUMAN_QUIT })
  ∧ (∀ txt, env.humanInput s.transcript = some txt → txt ≠ "" →
       txt ≠ "exit" →
       step env cfg s =
         appendTurn cfg s
           { actor := .Executor, content := txt,
             outcome := .HUMAN_OVERRIDE (parseTarget txt) })
  ∧ (∀ env2 : Env,
       env2.humanInput s.transcript = env.humanInput s.transcript →
       env.humanInput s.transcript ≠ some "" →
       step env2 cfg s = step env cfg s) := by
  have hc : ¬ (s.rounds ≥ cfg.ceiling) := not_le.mpr hceil
  refine ⟨?_, ?_, ?_, ?_⟩
  · intro hin
    simp [step, hrun, hc, hexec, gateTurn, classifyInput, hin]
  · intro hin
    simp [step, hrun, hc, hexec, gateTurn, classifyInput, hin]
  · intro txt hin h0 hx
    simp [step, hrun, hc, hexec, gateTurn, classifyInput, hin, h0, hx]
  · intro env2 h2 hne
    cases hin : env.humanInput s.transcript with
    | none =>
      rw [hin] at h2
      simp [step, hrun, hc, hexec, gateTurn, classifyInput, hin, h2]
    | some str =>
      rw [hin] at h2
      by_cases h0 : str = ""
      · exact absurd (by rw [hin, h0]) hne
      · by_cases hx : str = "exit"
        · simp [step, hrun, hc, hexec, gateTurn, classifyInput,
                hin, h2, h0, hx]
        · simp [step, hrun, hc, hexec, gateTurn, classifyInput,
                hin, h2, h0, hx]

/-- Witness for C3: with an approving human, the Executor's turn comes
from the execution sink. -/
theorem c3_approval_gate_witness :
    step trivialEnv ⟨50⟩ afterTester =
      appendTurn ⟨50⟩ afterTester
        (mkTurn .Executor (trivialEnv.execute afterTester.transcript)) :=
  (c3_approval_gate trivialEnv ⟨50⟩ afterTester rfl (by decide) rfl).1 rfl

/-- C7: a closed human input stream at an Executor approval prompt fails
closed — the session terminates as HUMAN_QUIT, nothing is appended, the
result is never RUNNING (never silent approval), and it is independent of
the execution and contribution oracles, so nothing executes. -/
theorem c7_closed_channel_fails_closed (env : Env) (cfg : Config)
    (s : SessionState) (hrun : s.status = .RUNNING)
    (hceil : s.rounds < cfg.ceiling)
    (hexec : routeFrom s.transcript = .ok (.next .Executor))
    (hclosed : env.humanInput s.transcript = none) :
    step env cfg s = { s with status := .HUMAN_QUIT }
  ∧ (step env cfg s).status ≠ .RUNNING
  ∧ (step env cfg s).transcript = s.transcript
  ∧ ∀ env2 : Env, env2.humanInput s.transcript = none →
      step env2 cfg s = step env cfg s := by
  have hc : ¬ (s.rounds ≥ cfg.ceiling) := not_le.mpr hceil
  have h1 : step env cfg s = { s with status := .HUMAN_QUIT } := by
    simp [step, hrun, hc, hexec, gateTurn, classifyInput, hclosed]
  refine ⟨h1, ?_, ?_, ?_⟩
  · rw [h1]
    simp
  · rw [h1]
  · intro env2 h2
    rw [h1]
    simp [step, hrun, hc, hexec, gateTurn, classifyInput, h2]

/-- Witness for C7 at a concrete closed-channel environment. -/
theorem c7_closed_channel_fails_closed_witness :
    step closedEnv ⟨50⟩ afterTester =
      { afterTester with status := .HUMAN_QUIT } :=
  (c7_closed_channel_fails_closed closedEnv ⟨50⟩ afterTester rfl
      (by decide) rfl rfl).1

end Crew
